import Mathlib

/-!
Shallow embedding of the VoiceChat repository (src/GeminiLive.py, src/ui.py)
and proofs of the frozen claims about it.

Conventions of the embedding:
* Python strings are Lean `String`s; byte buffers are `List Nat`.
* Python exceptions are modelled by error codes (`Nat`) threaded through
  `Except` / explicit trace structures.
* `asyncio` queues are Lean lists (front of list = head of queue).
* Randomness (`random.shuffle`) is an oracle: a stream of permutations
  `shuffles : Nat → List String`, indexed by how many refills have happened
  (the index stands for Python's hidden RNG state; one fresh draw per refill).
* Suspension points (`await queue.get()` on an empty queue, `await queue.put()`
  on a full queue) are modelled by `Option`/unchanged-state outcomes.
-/

namespace VoiceChat

/-! ### Module constants (GeminiLive.py lines 20-31) -/

def DEFAULT_VOICE : String := "Puck"

def DEFAULT_SYSTEM_INST : String := "You are a helpful assistant and answer in a friendly tone."

def DEFAULT_RESPONSE_MODE : String := "AUDIO"

def MODEL : String := "models/gemini-2.0-flash-exp"

def MAX_RETRIES : Nat := 3

def RETRY_DELAY : Nat := 2

/-! ### KeyManager (GeminiLive.py lines 35-66) -/

/-- Python str.strip() on the character list: drop whitespace from both ends. -/
def pyStripChars (l : List Char) : List Char :=
  ((l.dropWhile Char.isWhitespace).reverse.dropWhile Char.isWhitespace).reverse

/-- Python str.strip() (whitespace characters as in `Char.isWhitespace`). -/
def pyStrip (s : String) : String := String.mk (pyStripChars s.data)

/-- Python str.split(sep) for the single-character separator wired in below:
splitting the empty string gives one empty part, and every separator
occurrence starts a new part. -/
def pySplitCommaChars : List Char → List (List Char)
  | [] => [[]]
  | c :: rest =>
    let r := pySplitCommaChars rest
    if c = ',' then [] :: r
    else
      match r with
      | [] => [[c]]
      | p :: ps => (c :: p) :: ps

/-- Python keys_str.split(',') as used on line 49. -/
def pySplitComma (s : String) : List String := (pySplitCommaChars s.data).map String.mk

/-- Python str.lower(); like Python it maps upper-case letters to lower-case
(modelled for the ASCII range via `Char.toLower`, which covers the reserved
quit token the code compares against). -/
def pyLower (s : String) : String := String.mk (s.data.map Char.toLower)

/-- KeyManager._load_api_keys (lines 41-54): reads the GEMINI_API_KEYS
environment variable (`env = none` models an unset variable; `os.getenv`
defaults it to `""`), errors if falsy, splits on commas, strips whitespace,
keeps only truthy (non-empty) entries, and errors if none remain.
Error codes: 1 = "API keys configuration error", 2 = "No valid API keys". -/
def loadApiKeys (env : Option String) : Except Nat (List String) :=
  let keys_str := env.getD ""
  if keys_str = "" then
    .error 1
  else
    let keys := ((pySplitComma keys_str).map pyStrip).filter (fun k => k ≠ "")
    if keys = [] then .error 2 else .ok keys

/-- State of a KeyManager (lines 35-39): the immutable key list `_keys`, the
rotation deque `_key_queue`, and `refills`, the number of `_initialize_queue`
calls so far, used only to index the shuffle oracle (it stands for Python's
hidden RNG state and has no counterpart field in the source). -/
structure KeyManager where
  keys : List String
  keyQueue : List String
  refills : Nat
  deriving Repr, DecidableEq

/-- KeyManager.__init__ (lines 36-39) given already-loaded keys: the
constructor immediately calls _initialize_queue, so the queue starts as the
first shuffle draw and one refill has happened. -/
def mkKeyManager (shuffles : Nat → List String) (keys : List String) : KeyManager :=
  { keys := keys, keyQueue := shuffles 0, refills := 1 }

/-- KeyManager.get_next_key (lines 62-66): refill the queue with a fresh
shuffle of the full key set if it is empty, then popleft.  `none` models the
IndexError that `deque.popleft` raises when the queue is still empty after
the refill (possible only if the shuffle oracle returns `[]`). -/
def getNextKey (shuffles : Nat → List String) (km : KeyManager) : Option (String × KeyManager) :=
  let km' := if km.keyQueue.isEmpty then
    { km with keyQueue := shuffles km.refills, refills := km.refills + 1 }
  else km
  match km'.keyQueue with
  | [] => none
  | k :: rest => some (k, { km' with keyQueue := rest })

/-- Calling get_next_key `n` times in a row, collecting the drawn keys. -/
def drawN (shuffles : Nat → List String) (km : KeyManager) : Nat → Option (List String × KeyManager)
  | 0 => some ([], km)
  | n + 1 =>
    match getNextKey shuffles km with
    | none => none
    | some (k, km') =>
      match drawN shuffles km' n with
      | none => none
      | some (ks, km'') => some (k :: ks, km'')

/-! ### Client creation with retries (AudioLoop.initialize_client, lines 106-128) -/

/-- genai.Client (line 114): identified by the api key it was built with. -/
structure Client where
  api_key : String
  deriving Repr, DecidableEq

/-- Execution trace of initialize_client: credentials drawn (one per attempt,
line 113), sleeps executed (line 125), final outcome (`return` on line 119 or
`raise last_error` on line 128), and the rotator state left behind. -/
structure InitTrace where
  draws : List String
  sleeps : List Nat
  outcome : Except Nat Client
  km : KeyManager
  deriving Repr

/-- The `while retries < MAX_RETRIES` loop of initialize_client
(lines 111-125), with `fuel = MAX_RETRIES - retries` iterations left.
`tryCreate` is the genai.Client constructor collaborator: `.ok` a client or
`.error` an exception code.  After a failed attempt the code sleeps
RETRY_DELAY only if another attempt remains (line 124), i.e. iff `fuel ≠ 0`
after the decrement.  Exhausted fuel models `raise last_error` (line 128).
A `none` from getNextKey is the IndexError `deque.popleft` would raise inside
the `try`, caught by the `except` like any attempt failure (code 99). -/
def initLoop (shuffles : Nat → List String) (tryCreate : String → Except Nat Client) :
    Nat → KeyManager → Option Nat → InitTrace
  | 0, km, lastError =>
    { draws := [], sleeps := [], outcome := .error (lastError.getD 0), km := km }
  | fuel + 1, km, _lastError =>
    match getNextKey shuffles km with
    | none =>
      let t := initLoop shuffles tryCreate fuel km (some 99)
      { t with sleeps := (if fuel ≠ 0 then [RETRY_DELAY] else []) ++ t.sleeps }
    | some (k, km') =>
      match tryCreate k with
      | .ok c => { draws := [k], sleeps := [], outcome := .ok c, km := km' }
      | .error e =>
        let t := initLoop shuffles tryCreate fuel km' (some e)
        { t with draws := k :: t.draws,
                 sleeps := (if fuel ≠ 0 then [RETRY_DELAY] else []) ++ t.sleeps }

/-- AudioLoop.initialize_client (lines 106-128): run the retry loop with the
full MAX_RETRIES budget, starting with `last_error = None`. -/
def initClient (shuffles : Nat → List String) (tryCreate : String → Except Nat Client)
    (km : KeyManager) : InitTrace :=
  initLoop shuffles tryCreate MAX_RETRIES km none

/-! ### Session configuration and orchestrator state (lines 73-104, 130-146, 227-246) -/

/-- The `config` dict built by run (lines 229-243): response modalities,
system-instruction text, and — only in AUDIO mode — the prebuilt voice name. -/
structure LiveConfig where
  response_modalities : List String
  system_instruction : String
  speech_config : Option String
  deriving Repr, DecidableEq

/-- One live session (`client.aio.live.connect(model=MODEL, config=config)`,
line 246): an immutable handle carrying the model name and the configuration
snapshot passed at connect time. -/
structure ConnectionHandle where
  model : String
  config : LiveConfig
  deriving Repr, DecidableEq

/-- A configuration-update dict as read by configure_session (lines 137-139):
only the keys the code looks up, each possibly absent. -/
structure ConfigUpdate where
  voice : Option String
  system_instruction : Option String
  response_mode : Option String
  deriving Repr, DecidableEq

/-- An AudioChunk as enqueued by listen_audio (line 187). -/
structure AudioChunk where
  data : List Nat
  mime_type : String
  deriving Repr, DecidableEq

/-- The mutable fields of AudioLoop set in reset_state (lines 89-104):
the four queues, the three SessionConfig fields, the current session handle,
the current client, and the running flag. -/
structure AudioLoopState where
  audio_in_queue : List (List Nat)
  out_queue : List AudioChunk
  external_input_queue : List String
  config_update_queue : List ConfigUpdate
  voice : String
  system_instruction : String
  response_mode : String
  session : Option ConnectionHandle
  client : Option Client
  is_running : Bool
  deriving Repr, DecidableEq

/-- The capacity passed to `asyncio.Queue(maxsize=5)` for out_queue, line 91. -/
def OUT_QUEUE_MAXSIZE : Nat := 5

/-- AudioLoop.reset_state (lines 89-104): fresh empty queues, default
configuration, no session, no client, not running. -/
def resetStateFields : AudioLoopState :=
  { audio_in_queue := [], out_queue := [], external_input_queue := [],
    config_update_queue := [],
    voice := DEFAULT_VOICE, system_instruction := DEFAULT_SYSTEM_INST,
    response_mode := DEFAULT_RESPONSE_MODE,
    session := none, client := none, is_running := false }

/-- The body of configure_session's loop applied to one dequeued update
(lines 137-139): `new_config.get(key, current)` for each of the three
SessionConfig fields, leaving every other field of the orchestrator alone. -/
def applyConfigUpdate (u : ConfigUpdate) (s : AudioLoopState) : AudioLoopState :=
  { s with voice := u.voice.getD s.voice,
           system_instruction := u.system_instruction.getD s.system_instruction,
           response_mode := u.response_mode.getD s.response_mode }

/-- One iteration of configure_session (lines 133-139): await an update from
config_update_queue (suspend — `none` — when it is empty), then apply it. -/
def configureSessionStep (s : AudioLoopState) : Option AudioLoopState :=
  match s.config_update_queue with
  | [] => none
  | u :: rest => some (applyConfigUpdate u { s with config_update_queue := rest })

/-- The config dict as built from the current state by run (lines 229-243):
`speech_config` is attached only when response_mode is AUDIO. -/
def buildLiveConfig (s : AudioLoopState) : LiveConfig :=
  { response_modalities := [s.response_mode],
    system_instruction := s.system_instruction,
    speech_config := if s.response_mode = "AUDIO" then some s.voice else none }

/-- Opening a connection (line 246): the handle snapshots MODEL and the
config built from the state at this moment. -/
def connectSession (s : AudioLoopState) : ConnectionHandle :=
  { model := MODEL, config := buildLiveConfig s }

/-! ### Inbound pipeline (AudioLoop.receive_audio, lines 189-205) -/

/-- One response event of a turn: its `.data` (None modelled as the empty
buffer, both falsy) and its `.text` (None modelled as "", both falsy). -/
structure GeminiResponse where
  data : List Nat
  text : String
  deriving Repr, DecidableEq

/-- The body of `async for response in turn` (lines 193-198) acting on the
pair (audio_in_queue, texts printed so far): truthy data is enqueued with
put_nowait; otherwise truthy text is printed. -/
def processResponse (st : List (List Nat) × List String) (r : GeminiResponse) :
    List (List Nat) × List String :=
  if r.data ≠ [] then (st.1 ++ [r.data], st.2)
  else if r.text ≠ "" then (st.1, st.2 ++ [r.text])
  else st

/-- The drain loop after the turn completes (lines 204-205):
`while not empty: get_nowait()`. -/
def drainAudioQueue : List (List Nat) → List (List Nat)
  | [] => []
  | _ :: rest => drainAudioQueue rest

/-- One outer iteration of receive_audio (lines 191-205): consume the events
of one turn (the `async for` ends when the stream signals TurnComplete), then
drain the inbound audio queue synchronously. -/
def receiveTurn (q : List (List Nat)) (events : List GeminiResponse) :
    List (List Nat) × List String :=
  let st := events.foldl processResponse (q, [])
  (drainAudioQueue st.1, st.2)

/-! ### The bounded outbound queue (line 91 and listen_audio, lines 185-187) -/

/-- An operation on the outbound queue: a put attempt by the capture pipeline
(line 187) or a take by the send pipeline (line 167). -/
inductive QOp (α : Type) where
  | put (x : α)
  | take
  deriving Repr, DecidableEq

/-- `asyncio.Queue.put` on a queue with maxsize: insert at the back if a slot
is free, otherwise `none` — the caller suspends until a slot frees, and the
item is neither dropped nor overwritten. -/
def tryPut {α : Type} (q : List α) (x : α) : Option (List α) :=
  if q.length < OUT_QUEUE_MAXSIZE then some (q ++ [x]) else none

/-- One scheduler step on the outbound queue.  A put that would overflow
leaves the queue unchanged (the producer is suspended, still holding the
chunk); a take pops the head (and suspends on an empty queue, leaving it
unchanged). -/
def stepOp {α : Type} (q : List α) : QOp α → List α
  | .put x =>
    match tryPut q x with
    | some q' => q'
    | none => q
  | .take => q.tail

/-- A whole schedule of queue operations. -/
def runOps {α : Type} (ops : List (QOp α)) (q : List α) : List α := ops.foldl stepOp q

/-! ### Text-injection pipeline (AudioLoop.send_text, lines 148-159) -/

/-- What send_text does with one dequeued string. -/
inductive SendTextAction where
  | quit
  | send (msg : String) (end_of_turn : Bool)
  deriving Repr, DecidableEq

/-- The loop body of send_text (lines 152-155): `break` when
`text.lower() == "q"`, otherwise `session.send(input=text or ".",
end_of_turn=True)` (the falsy empty string becomes "."). -/
def sendTextStep (text : String) : SendTextAction :=
  if pyLower text = "q" then .quit
  else .send (if text = "" then "." else text) true

/-! ### The supervised task group (AudioLoop.run, lines 219-276)

The five pipelines run inside `asyncio.TaskGroup()` nested inside the
`client.aio.live.connect` context manager (lines 245-259), with contexts
exited innermost-first.  The relevant asyncio semantics embedded here:

* a task whose coroutine raises an unhandled exception makes the TaskGroup
  cancel every sibling task, and `async with` re-raises the failure as an
  ExceptionGroup; unwinding then closes the connection context, and run's
  inner `except Exception` (lines 261-265) re-initializes the client with a
  fresh credential and sleeps RETRY_DELAY before the next loop iteration;
* a task that completes normally does NOT affect its siblings: after
  `await send_text_task` (line 259) returns, `TaskGroup.__aexit__` merely
  WAITS for the remaining tasks, with the connection still open;
* cancellation from outside (ui.py AsyncRunner.stop) unwinds everything,
  closes the connection and lands in run's finally (lines 272-276). -/

/-- The five tasks created on lines 253-257. -/
inductive PipelineId where
  | sendText
  | sendRealtime
  | listenAudio
  | receiveAudio
  | playAudio
  deriving Repr, DecidableEq

/-- Which pipeline coroutines wrap their loop in `try/except Exception`:
only send_text (lines 150-159); send_realtime, listen_audio, receive_audio
and play_audio have no handler, so their exceptions escape the task. -/
def handlesExceptions : PipelineId → Bool
  | .sendText => true
  | .sendRealtime => false
  | .listenAudio => false
  | .receiveAudio => false
  | .playAudio => false

/-- How a pipeline task ends when an exception `e` is raised in its body:
a swallowed exception lets the coroutine return normally (send_text logs and
falls off the `except`, lines 158-159); otherwise the task raises. -/
inductive TaskResult where
  | completed
  | raised (e : Nat)
  deriving Repr, DecidableEq

def taskOutcome (p : PipelineId) (e : Nat) : TaskResult :=
  if handlesExceptions p then .completed else .raised e

/-- Where the orchestrator's control is, following run's control flow. -/
inductive Phase where
  | connecting
  | active
  | groupWaiting
  | recovering (e : Nat)
  | terminated
  deriving Repr, DecidableEq

/-- The observable result of one scheduling step while the group is up:
which tasks are still running, whether the connection is still open, and the
phase control moved to. -/
structure StepResult where
  sendTextRunning : Bool
  othersRunning : Bool
  connectionOpen : Bool
  phase : Phase
  deriving Repr, DecidableEq

/-- The events that can end the quiescence of the Active group. -/
inductive ActiveEvent where
  | pipelineRaises (p : PipelineId) (e : Nat)
  | sendTextQuits
  | externalCancel
  deriving Repr, DecidableEq

/-- One step from the Active phase (group up, body at line 259).
An escaping exception tears the whole group down (siblings cancelled,
connection closed by the context-manager unwind) and lands in the `except`
branch that recovers (lines 261-265).  send_text returning normally — the
quit token (line 154) or a swallowed error (lines 158-159) — only ends the
body's await: the group then waits for the four remaining tasks with the
connection still open.  External cancellation unwinds everything into the
finally (lines 267-276). -/
def stepActive : ActiveEvent → StepResult
  | .pipelineRaises p e =>
    match taskOutcome p e with
    | .raised e' =>
      { sendTextRunning := false, othersRunning := false,
        connectionOpen := false, phase := .recovering e' }
    | .completed =>
      { sendTextRunning := false, othersRunning := true,
        connectionOpen := true, phase := .groupWaiting }
  | .sendTextQuits =>
    { sendTextRunning := false, othersRunning := true,
      connectionOpen := true, phase := .groupWaiting }
  | .externalCancel =>
    { sendTextRunning := false, othersRunning := false,
      connectionOpen := false, phase := .terminated }

/-- One step from the groupWaiting phase (TaskGroup.__aexit__ awaiting the
four remaining infinite-loop tasks, send_text already finished).  Only a
remaining task's escaping exception (or external cancellation) ends the
wait; nothing else closes the connection. -/
def stepGroupWaiting : ActiveEvent → StepResult
  | .pipelineRaises p e =>
    match taskOutcome p e with
    | .raised e' =>
      { sendTextRunning := false, othersRunning := false,
        connectionOpen := false, phase := .recovering e' }
    | .completed =>
      { sendTextRunning := false, othersRunning := true,
        connectionOpen := true, phase := .groupWaiting }
  | .sendTextQuits =>
    { sendTextRunning := false, othersRunning := true,
      connectionOpen := true, phase := .groupWaiting }
  | .externalCancel =>
    { sendTextRunning := false, othersRunning := false,
      connectionOpen := false, phase := .terminated }

/-- The recovery branch (lines 261-265): re-initialize the client — drawing
fresh credentials from the rotator — then sleep RETRY_DELAY and loop back to
connecting; if even initialize_client exhausts its budget, its exception
escapes the `while` into the outer handler and run ends (lines 269-276). -/
def stepRecovering (shuffles : Nat → List String) (tryCreate : String → Except Nat Client)
    (km : KeyManager) : InitTrace × Phase :=
  let t := initClient shuffles tryCreate km
  match t.outcome with
  | .ok _ => (t, .connecting)
  | .error _ => (t, .terminated)

/-! ### Basic KeyManager lemmas -/

theorem getNextKey_nonempty (shuffles : Nat → List String) (km : KeyManager)
    (k : String) (rest : List String) (hq : km.keyQueue = k :: rest) :
    getNextKey shuffles km = some (k, { km with keyQueue := rest }) := by
  simp [getNextKey, hq]

theorem getNextKey_empty (shuffles : Nat → List String) (km : KeyManager)
    (k : String) (rest : List String)
    (hq : km.keyQueue = []) (hs : shuffles km.refills = k :: rest) :
    getNextKey shuffles km =
      some (k, { km with keyQueue := rest, refills := km.refills + 1 }) := by
  simp [getNextKey, hq, hs]

/-- When the queue holds exactly the list `q`, drawing `q.length` keys yields
`q` itself and leaves the queue empty (no refill is triggered on the way). -/
theorem drawN_exact (shuffles : Nat → List String) (keys : List String) (r : Nat) :
    ∀ q : List String, q ≠ [] →
      drawN shuffles { keys := keys, keyQueue := q, refills := r } q.length =
        some (q, { keys := keys, keyQueue := [], refills := r }) := by
  intro q
  induction q with
  | nil => intro h; exact absurd rfl h
  | cons k rest ih =>
    intro _
    have step : getNextKey shuffles { keys := keys, keyQueue := k :: rest, refills := r } =
        some (k, { keys := keys, keyQueue := rest, refills := r }) := by
      simp [getNextKey]
    rcases rest with _ | ⟨k₂, rest₂⟩
    · simp [drawN, step]
    · have ih' := ih (by simp)
      simp only [List.length_cons, drawN, step] at ih' ⊢
      rw [ih']

/-- Whenever the full key set is non-empty and the shuffle oracle returns
permutations of it, get_next_key always succeeds and keeps the key set. -/
theorem getNextKey_total (shuffles : Nat → List String) (keys : List String)
    (hne : keys ≠ []) (hperm : ∀ i, List.Perm (shuffles i) keys)
    (km : KeyManager) (hkm : km.keys = keys) :
    ∃ k km', getNextKey shuffles km = some (k, km') ∧ km'.keys = keys := by
  rcases hq : km.keyQueue with _ | ⟨k, rest⟩
  · have hs : shuffles km.refills ≠ [] := by
      intro h0
      have hp := hperm km.refills
      rw [h0] at hp
      exact hne hp.symm.eq_nil
    obtain ⟨k, rest, hcons⟩ := List.exists_cons_of_ne_nil hs
    exact ⟨k, _, getNextKey_empty shuffles km k rest hq hcons, hkm⟩
  · exact ⟨k, _, getNextKey_nonempty shuffles km k rest hq, hkm⟩

/-- The first projection of the recovery step is the initialize_client trace. -/
theorem stepRecovering_fst (shuffles : Nat → List String)
    (tryCreate : String → Except Nat Client) (km : KeyManager) :
    (stepRecovering shuffles tryCreate km).1 = initClient shuffles tryCreate km := by
  unfold stepRecovering
  rcases h : (initClient shuffles tryCreate km).outcome with e | c <;> simp [h]

/-- With fuel left, the first attempt of the initialize_client loop draws the
key the rotator hands out. -/
theorem initLoop_head_draw (shuffles : Nat → List String)
    (tryCreate : String → Except Nat Client) (fuel : Nat) (km : KeyManager)
    (le : Option Nat) (k : String) (km' : KeyManager)
    (h : getNextKey shuffles km = some (k, km')) :
    (initLoop shuffles tryCreate (fuel + 1) km le).draws.head? = some k := by
  rcases h2 : tryCreate k with e | c <;> simp [initLoop, h, h2]

/-- Every drain pass empties the queue completely. -/
theorem drainAudioQueue_eq_nil : ∀ l : List (List Nat), drainAudioQueue l = []
  | [] => rfl
  | _ :: rest => drainAudioQueue_eq_nil rest

/-! ## The claims -/

/-- C9: credential loading fails exactly when the configuration value is
absent, empty, or contains no non-empty entries after splitting on commas and
trimming whitespace; on success every loaded credential is a non-empty
string. -/
theorem loadApiKeys_fail_iff_no_valid_entries (env : Option String) :
    ((∃ e, loadApiKeys env = .error e) ↔
      ((pySplitComma (env.getD "")).map pyStrip).filter (fun k => k ≠ "") = []) ∧
    (∀ keys, loadApiKeys env = .ok keys → ∀ k ∈ keys, k ≠ "") := by
  have hunfold : loadApiKeys env =
      (if env.getD "" = "" then .error 1
       else if ((pySplitComma (env.getD "")).map pyStrip).filter (fun k => k ≠ "") = []
         then .error 2
         else .ok (((pySplitComma (env.getD "")).map pyStrip).filter (fun k => k ≠ ""))) :=
    rfl
  rw [hunfold]
  by_cases h : env.getD "" = ""
  · rw [if_pos h]
    refine ⟨⟨fun _ => ?_, fun _ => ⟨1, rfl⟩⟩, fun keys hk => by cases hk⟩
    rw [h]; decide
  · rw [if_neg h]
    by_cases h2 : ((pySplitComma (env.getD "")).map pyStrip).filter (fun k => k ≠ "") = []
    · rw [if_pos h2]
      exact ⟨⟨fun _ => h2, fun _ => ⟨2, rfl⟩⟩, fun keys hk => by cases hk⟩
    · rw [if_neg h2]
      refine ⟨⟨fun he => ?_, fun hh => absurd hh h2⟩, fun keys hk k hkmem => ?_⟩
      · obtain ⟨e, he⟩ := he
        cases he
      · have hkeys : ((pySplitComma (env.getD "")).map pyStrip).filter
            (fun k => k ≠ "") = keys := Except.ok.inj hk
        rw [← hkeys] at hkmem
        have hdec := (List.mem_filter.mp hkmem).2
        exact of_decide_eq_true hdec

/-- C9 witness: a value with padding, an all-whitespace entry and two real
keys loads exactly the two stripped non-empty keys. -/
theorem loadApiKeys_fail_iff_no_valid_entries_witness :
    loadApiKeys (some " A ,  ,B") = .ok ["A", "B"] ∧
    (∀ k ∈ (["A", "B"] : List String), k ≠ "") :=
  ⟨rfl, fun k hk =>
    (loadApiKeys_fail_iff_no_valid_entries (some " A ,  ,B")).2 ["A", "B"] rfl k hk⟩

/-- C4: starting from a fresh cycle over a non-empty set of pairwise distinct
credentials, N = keys.length calls of get_next_key return exactly the first
shuffle draw — each credential exactly once — and leave the queue empty, and
the (N+1)-th call refills the queue with the next, fresh permutation of the
full set and returns its head. -/
theorem getNextKey_full_cycle (keys : List String) (shuffles : Nat → List String)
    (hne : keys ≠ []) (hnd : keys.Nodup)
    (hperm : ∀ i, List.Perm (shuffles i) keys) :
    drawN shuffles (mkKeyManager shuffles keys) keys.length =
      some (shuffles 0, { keys := keys, keyQueue := [], refills := 1 }) ∧
    (∀ k ∈ keys, (shuffles 0).count k = 1) ∧
    ∃ k rest, shuffles 1 = k :: rest ∧
      getNextKey shuffles { keys := keys, keyQueue := [], refills := 1 } =
        some (k, { keys := keys, keyQueue := rest, refills := 2 }) := by
  have hs0 : shuffles 0 ≠ [] := by
    intro h0
    have hp := hperm 0
    rw [h0] at hp
    exact hne hp.symm.eq_nil
  have hlen : (shuffles 0).length = keys.length := (hperm 0).length_eq
  refine ⟨?_, fun k hk => ?_, ?_⟩
  · have h1 := drawN_exact shuffles keys 1 (shuffles 0) hs0
    rw [hlen] at h1
    exact h1
  · rw [(hperm 0).count_eq k]
    exact List.count_eq_one_of_mem hnd hk
  · have hs1 : shuffles 1 ≠ [] := by
      intro h1
      have hp := hperm 1
      rw [h1] at hp
      exact hne hp.symm.eq_nil
    obtain ⟨k, rest, hcons⟩ := List.exists_cons_of_ne_nil hs1
    exact ⟨k, rest, hcons,
      getNextKey_empty shuffles { keys := keys, keyQueue := [], refills := 1 } k rest rfl hcons⟩

/-- C4 witness: the two-key set, with the oracle drawing the reversed order
first. -/
theorem getNextKey_full_cycle_witness :
    drawN (fun _ => ["B", "A"]) (mkKeyManager (fun _ => ["B", "A"]) ["A", "B"])
        (["A", "B"] : List String).length =
      some (["B", "A"], { keys := ["A", "B"], keyQueue := [], refills := 1 }) ∧
    (∀ k ∈ (["A", "B"] : List String), (["B", "A"] : List String).count k = 1) ∧
    (∃ k rest, (["B", "A"] : List String) = k :: rest ∧
      getNextKey (fun _ => ["B", "A"]) { keys := ["A", "B"], keyQueue := [], refills := 1 } =
        some (k, { keys := ["A", "B"], keyQueue := rest, refills := 2 })) :=
  getNextKey_full_cycle ["A", "B"] (fun _ => ["B", "A"]) (by decide) (by decide)
    (fun _ => List.Perm.swap "A" "B" [])

/-- C2: against a client constructor that always fails, initialize_client
makes exactly 3 attempts — the credentials drawn are exactly the next three
draws of the rotator, one fresh draw per attempt — sleeps the fixed
RETRY_DELAY between consecutive attempts (twice), raises the error observed
on the 3rd attempt, and never makes a 4th attempt. -/
theorem initClient_three_failed_attempts (keys : List String)
    (shuffles : Nat → List String) (tryCreate : String → Except Nat Client)
    (km : KeyManager) (hkm : km.keys = keys) (hne : keys ≠ [])
    (hperm : ∀ i, List.Perm (shuffles i) keys)
    (hfail : ∀ k, ∃ e, tryCreate k = .error e) :
    ∃ k₁ k₂ k₃ km₃ e₃,
      drawN shuffles km 3 = some ([k₁, k₂, k₃], km₃) ∧
      tryCreate k₃ = .error e₃ ∧
      initClient shuffles tryCreate km =
        { draws := [k₁, k₂, k₃], sleeps := [RETRY_DELAY, RETRY_DELAY],
          outcome := .error e₃, km := km₃ } := by
  obtain ⟨k₁, km₁, h₁, hkm₁⟩ := getNextKey_total shuffles keys hne hperm km hkm
  obtain ⟨e₁, he₁⟩ := hfail k₁
  obtain ⟨k₂, km₂, h₂, hkm₂⟩ := getNextKey_total shuffles keys hne hperm km₁ hkm₁
  obtain ⟨e₂, he₂⟩ := hfail k₂
  obtain ⟨k₃, km₃, h₃, hkm₃⟩ := getNextKey_total shuffles keys hne hperm km₂ hkm₂
  obtain ⟨e₃, he₃⟩ := hfail k₃
  refine ⟨k₁, k₂, k₃, km₃, e₃, ?_, he₃, ?_⟩
  · simp [drawN, h₁, h₂, h₃]
  · show initLoop shuffles tryCreate 3 km none = _
    simp [initLoop, h₁, h₂, h₃, he₁, he₂, he₃]

/-- C2 witness: one key, a constructor failing with error 7. -/
theorem initClient_three_failed_attempts_witness :
    ∃ k₁ k₂ k₃ km₃ e₃,
      drawN (fun _ => ["A"]) (mkKeyManager (fun _ => ["A"]) ["A"]) 3 =
        some ([k₁, k₂, k₃], km₃) ∧
      (Except.error 7 : Except Nat Client) = .error e₃ ∧
      initClient (fun _ => ["A"]) (fun _ => .error 7)
          (mkKeyManager (fun _ => ["A"]) ["A"]) =
        { draws := [k₁, k₂, k₃], sleeps := [RETRY_DELAY, RETRY_DELAY],
          outcome := .error e₃, km := km₃ } :=
  initClient_three_failed_attempts ["A"] (fun _ => ["A"]) (fun _ => .error 7)
    (mkKeyManager (fun _ => ["A"]) ["A"]) rfl (by decide)
    (fun _ => List.Perm.refl _) (fun _ => ⟨7, rfl⟩)

/-- C3: however many chunks are buffered in the inbound audio queue when a
turn's event stream ends (the TurnComplete point), the synchronous drain
leaves the queue with exactly 0 chunks. -/
theorem receiveTurn_drains_queue (q : List (List Nat)) (events : List GeminiResponse)
    (k : Nat) (_hk : (events.foldl processResponse (q, [])).1.length = k) :
    (receiveTurn q events).1.length = 0 := by
  simp [receiveTurn, drainAudioQueue_eq_nil]

/-- C3 witness: two chunks buffered before the turn plus one arriving during
it (k = 3), drained to zero. -/
theorem receiveTurn_drains_queue_witness :
    (receiveTurn [[1], [2]] [{ data := [3], text := "" }]).1.length = 0 :=
  receiveTurn_drains_queue [[1], [2]] [{ data := [3], text := "" }] 3 (by decide)

/-- C6: the outbound audio queue is bounded at capacity 5: every schedule of
put and take operations keeps its length at most 5, a put attempt on a full
queue suspends (returns no new queue) rather than dropping or overwriting
anything, and a successful put appends the chunk while preserving every
chunk already buffered. -/
theorem out_queue_bounded (ops : List (QOp AudioChunk)) (q : List AudioChunk)
    (hq : q.length ≤ OUT_QUEUE_MAXSIZE) :
    (runOps ops q).length ≤ OUT_QUEUE_MAXSIZE ∧
    (∀ x, q.length = OUT_QUEUE_MAXSIZE → tryPut q x = none) ∧
    (∀ x q', tryPut q x = some q' → q' = q ++ [x]) := by
  refine ⟨?_, fun x h5 => by simp [tryPut, h5], fun x q' hput => ?_⟩
  · induction ops generalizing q with
    | nil => simpa [runOps] using hq
    | cons op rest ih =>
      have hstep : (stepOp q op).length ≤ OUT_QUEUE_MAXSIZE := by
        cases op with
        | put x =>
          by_cases hlt : q.length < OUT_QUEUE_MAXSIZE
          · simp [stepOp, tryPut, hlt]
            omega
          · simpa [stepOp, tryPut, hlt] using hq
        | take =>
          have ht : stepOp q QOp.take = q.tail := rfl
          rw [ht]
          have htl : q.tail.length ≤ q.length := by
            cases q <;> simp
          omega
      simpa [runOps, List.foldl_cons] using ih (stepOp q op) hstep
  · by_cases hlt : q.length < OUT_QUEUE_MAXSIZE
    · simp [tryPut, hlt] at hput
      exact hput.symm
    · simp [tryPut, hlt] at hput

/-- C6 witness: a full queue of five chunks — one more put suspends, the
bound holds through a put-then-take schedule. -/
theorem out_queue_bounded_witness :
    (runOps [QOp.put (AudioChunk.mk [0] "audio/pcm"), QOp.take]
        (List.replicate 5 (AudioChunk.mk [1] "audio/pcm"))).length ≤ OUT_QUEUE_MAXSIZE ∧
    (∀ x, (List.replicate 5 (AudioChunk.mk [1] "audio/pcm")).length = OUT_QUEUE_MAXSIZE →
      tryPut (List.replicate 5 (AudioChunk.mk [1] "audio/pcm")) x = none) ∧
    (∀ x q', tryPut (List.replicate 5 (AudioChunk.mk [1] "audio/pcm")) x = some q' →
      q' = List.replicate 5 (AudioChunk.mk [1] "audio/pcm") ++ [x]) :=
  out_queue_bounded [QOp.put (AudioChunk.mk [0] "audio/pcm"), QOp.take]
    (List.replicate 5 (AudioChunk.mk [1] "audio/pcm")) (by decide)

/-- C7: applying a dequeued configuration update overwrites exactly the three
SessionConfig fields present in the update (each via get-with-default:
absent fields keep their value) and leaves every other piece of orchestrator
state — queues, session handle, client, running flag — unmodified. -/
theorem applyConfigUpdate_frame (u : ConfigUpdate) (s : AudioLoopState) :
    (applyConfigUpdate u s).voice = u.voice.getD s.voice ∧
    (applyConfigUpdate u s).system_instruction =
      u.system_instruction.getD s.system_instruction ∧
    (applyConfigUpdate u s).response_mode = u.response_mode.getD s.response_mode ∧
    (applyConfigUpdate u s).audio_in_queue = s.audio_in_queue ∧
    (applyConfigUpdate u s).out_queue = s.out_queue ∧
    (applyConfigUpdate u s).external_input_queue = s.external_input_queue ∧
    (applyConfigUpdate u s).config_update_queue = s.config_update_queue ∧
    (applyConfigUpdate u s).session = s.session ∧
    (applyConfigUpdate u s).client = s.client ∧
    (applyConfigUpdate u s).is_running = s.is_running :=
  ⟨rfl, rfl, rfl, rfl, rfl, rfl, rfl, rfl, rfl, rfl⟩

/-- C8: the connection handle snapshots the SessionConfig at connect time;
an update applied while that connection is the active session neither
replaces the stored handle nor alters its established parameters, and only a
connection established after the update reads the new values. -/
theorem config_apply_delayed (s : AudioLoopState) (u : ConfigUpdate) :
    (connectSession s).config = buildLiveConfig s ∧
    (applyConfigUpdate u { s with session := some (connectSession s) }).session =
      some (connectSession s) ∧
    connectSession (applyConfigUpdate u { s with session := some (connectSession s) }) =
      { model := MODEL, config := buildLiveConfig (applyConfigUpdate u s) } ∧
    (∀ v, u.voice = some v → (applyConfigUpdate u s).voice = v) := by
  refine ⟨rfl, rfl, rfl, fun v hv => ?_⟩
  simp [applyConfigUpdate, hv]

/-- C8 witness: a voice update against the freshly reset state. -/
theorem config_apply_delayed_witness :
    (connectSession resetStateFields).config = buildLiveConfig resetStateFields ∧
    (applyConfigUpdate (ConfigUpdate.mk (some "Kore") none none)
        { resetStateFields with session := some (connectSession resetStateFields) }).session =
      some (connectSession resetStateFields) ∧
    connectSession (applyConfigUpdate (ConfigUpdate.mk (some "Kore") none none)
        { resetStateFields with session := some (connectSession resetStateFields) }) =
      { model := MODEL,
        config := buildLiveConfig
          (applyConfigUpdate (ConfigUpdate.mk (some "Kore") none none) resetStateFields) } ∧
    (∀ v, (ConfigUpdate.mk (some "Kore") none none).voice = some v →
      (applyConfigUpdate (ConfigUpdate.mk (some "Kore") none none) resetStateFields).voice = v) :=
  config_apply_delayed resetStateFields (ConfigUpdate.mk (some "Kore") none none)

/-- C10: send_text quits exactly on the strings whose lowercase form is "q"
(so "Q" quits too, and nothing else does), and forwards every other string
as a turn-ending message, with the empty string replaced by ".". -/
theorem sendTextStep_spec (text : String) :
    (sendTextStep text = .quit ↔ pyLower text = "q") ∧
    (pyLower text ≠ "q" →
      sendTextStep text = .send (if text = "" then "." else text) true) := by
  constructor
  · constructor
    · intro h
      by_contra hq
      simp [sendTextStep, hq] at h
    · intro h
      simp [sendTextStep, h]
  · intro h
    simp [sendTextStep, h]

/-- C10 witness: "hello" is forwarded unchanged as a turn-ending message
(and the iff instantiates at any string; "hello" does not quit). -/
theorem sendTextStep_spec_witness :
    (pyLower "hello" ≠ "q") ∧
    sendTextStep "hello" = .send (if "hello" = "" then "." else "hello") true :=
  ⟨by decide, (sendTextStep_spec "hello").2 (by decide)⟩

/-- C5: an exception escaping any of the five pipeline tasks while Active
tears down the whole supervised group — every task stops, the connection
closes — and control re-enters Recovering, whose reconnect draws a fresh
credential from the rotator (the head draw of initialize_client); no
pipeline survives across the connection boundary. -/
theorem pipeline_error_tears_down_group (p : PipelineId) (e : Nat)
    (hesc : taskOutcome p e = .raised e)
    (keys : List String) (shuffles : Nat → List String)
    (tryCreate : String → Except Nat Client) (km : KeyManager)
    (hkm : km.keys = keys) (hne : keys ≠ [])
    (hperm : ∀ i, List.Perm (shuffles i) keys) :
    stepActive (.pipelineRaises p e) =
      { sendTextRunning := false, othersRunning := false,
        connectionOpen := false, phase := .recovering e } ∧
    ∃ k km', getNextKey shuffles km = some (k, km') ∧
      ((stepRecovering shuffles tryCreate km).1.draws).head? = some k := by
  constructor
  · simp [stepActive, hesc]
  · obtain ⟨k, km', h1, hk'⟩ := getNextKey_total shuffles keys hne hperm km hkm
    refine ⟨k, km', h1, ?_⟩
    rw [stepRecovering_fst]
    exact initLoop_head_draw shuffles tryCreate 2 km none k km' h1

/-- C5 witness: an error escaping the capture pipeline, one-key rotator. -/
theorem pipeline_error_tears_down_group_witness :
    stepActive (.pipelineRaises .listenAudio 7) =
      { sendTextRunning := false, othersRunning := false,
        connectionOpen := false, phase := .recovering 7 } ∧
    ∃ k km', getNextKey (fun _ => ["A"]) (mkKeyManager (fun _ => ["A"]) ["A"]) =
        some (k, km') ∧
      ((stepRecovering (fun _ => ["A"]) (fun k => .ok (Client.mk k))
          (mkKeyManager (fun _ => ["A"]) ["A"])).1.draws).head? = some k :=
  pipeline_error_tears_down_group .listenAudio 7 rfl ["A"] (fun _ => ["A"])
    (fun k => .ok (Client.mk k)) (mkKeyManager (fun _ => ["A"]) ["A"]) rfl
    (by decide) (fun _ => List.Perm.refl _)

/-- C1 counterexample: when the text-injection pipeline dequeues the quit
token, the resulting step does NOT close the connection and does NOT reach
Terminated or Recovering — so the claimed teardown-and-reconnect does not
happen. -/
theorem quit_token_no_teardown_counterexample :
    ¬ ((stepActive .sendTextQuits).connectionOpen = false ∧
       ((stepActive .sendTextQuits).phase = .terminated ∨
        ∃ e, (stepActive .sendTextQuits).phase = .recovering e)) := by
  intro h
  obtain ⟨hconn, _⟩ := h
  simp [stepActive] at hconn

/-- C1 (amended): dequeuing the quit token terminates the text-injection
pipeline itself, but the turn group is NOT torn down: the four remaining
pipelines keep running and the connection stays open while the group waits
for them; the connection closes — moving the orchestrator to Recovering, or
to Terminated on external cancellation — only when one of the remaining
pipelines raises an escaping error or the session is cancelled. -/
theorem quit_token_waits_for_group (p : PipelineId) (e : Nat)
    (hp : handlesExceptions p = false) :
    stepActive .sendTextQuits =
      { sendTextRunning := false, othersRunning := true,
        connectionOpen := true, phase := .groupWaiting } ∧
    stepGroupWaiting (.pipelineRaises p e) =
      { sendTextRunning := false, othersRunning := false,
        connectionOpen := false, phase := .recovering e } ∧
    stepGroupWaiting .externalCancel =
      { sendTextRunning := false, othersRunning := false,
        connectionOpen := false, phase := .terminated } := by
  refine ⟨rfl, ?_, rfl⟩
  simp [stepGroupWaiting, taskOutcome, hp]

/-- C1 witness: the receive pipeline failing while the group waits after the
quit token. -/
theorem quit_token_waits_for_group_witness :
    stepActive .sendTextQuits =
      { sendTextRunning := false, othersRunning := true,
        connectionOpen := true, phase := .groupWaiting } ∧
    stepGroupWaiting (.pipelineRaises .receiveAudio 3) =
      { sendTextRunning := false, othersRunning := false,
        connectionOpen := false, phase := .recovering 3 } ∧
    stepGroupWaiting .externalCancel =
      { sendTextRunning := false, othersRunning := false,
        connectionOpen := false, phase := .terminated } :=
  quit_token_waits_for_group .receiveAudio 3 rfl

end VoiceChat
